import Mathlib

/-!
Verification of the stock-screener repository (yin_line_logic.py,
Golden_Retracement_Premium.py, Golden_Retracement_Strategy.py,
stock_reversal_screener.py, one_pattern_strategy.py).

The Python code computes with IEEE floating point via pandas/numpy.  We embed
the numeric values as exact rationals extended with the three special values
`+inf`, `-inf` and `nan` (type `F` below), which is what the code's arithmetic
produces in the cases it exercises: pandas rolling windows yield `nan` before
the minimum window, division of a positive number by zero yields `+inf`,
`0/0` yields `nan`, and every comparison involving `nan` is `False`.
Floating-point rounding itself is not modelled (values are exact rationals);
none of the claims concerns rounding error.
-/

attribute [local semireducible] Rat.mul Rat.inv Rat.add Rat.sub

set_option maxRecDepth 100000

/-- A floating-point style value: an exact rational, an infinity, or `nan`.
This models the values flowing through the pandas computations. -/
inductive F where
  | fin : ℚ → F
  | pinf : F
  | ninf : F
  | nan : F
deriving DecidableEq, Repr

namespace F

/-- IEEE-style addition on `F`. -/
def add : F → F → F
  | fin a, fin b => fin (a + b)
  | fin _, pinf => pinf
  | fin _, ninf => ninf
  | pinf, fin _ => pinf
  | ninf, fin _ => ninf
  | pinf, pinf => pinf
  | ninf, ninf => ninf
  | pinf, ninf => nan
  | ninf, pinf => nan
  | nan, _ => nan
  | _, nan => nan

/-- IEEE-style negation on `F`. -/
def neg : F → F
  | fin a => fin (-a)
  | pinf => ninf
  | ninf => pinf
  | nan => nan

/-- IEEE-style subtraction on `F`. -/
def sub (x y : F) : F := add x (neg y)

/-- Sign used for the multiplication/division rules: 0, 1 or -1. -/
def sign : F → ℤ
  | fin a => if a = 0 then 0 else if 0 < a then 1 else -1
  | pinf => 1
  | ninf => -1
  | nan => 0

/-- IEEE-style multiplication on `F` (`inf * 0 = nan`). -/
def mul : F → F → F
  | fin a, fin b => fin (a * b)
  | nan, _ => nan
  | _, nan => nan
  | x, y => if sign x * sign y = 0 then nan
            else if 0 < sign x * sign y then pinf else ninf

/-- IEEE-style division on `F`.  Division of a nonzero rational by zero gives
a signed infinity, `0/0` gives `nan`, division by an infinity gives `0`.
(The sign of zero is not modelled; the code only divides by nonnegative
quantities.) -/
def div : F → F → F
  | fin a, fin b =>
      if b = 0 then (if a = 0 then nan else if 0 < a then pinf else ninf)
      else fin (a / b)
  | fin _, pinf => fin 0
  | fin _, ninf => fin 0
  | pinf, fin b => if 0 ≤ b then pinf else ninf
  | ninf, fin b => if 0 ≤ b then ninf else pinf
  | pinf, pinf => nan
  | pinf, ninf => nan
  | ninf, pinf => nan
  | ninf, ninf => nan
  | nan, _ => nan
  | _, nan => nan

/-- IEEE-style absolute value on `F`. -/
def fabs : F → F
  | fin a => fin |a|
  | pinf => pinf
  | ninf => pinf
  | nan => nan

/-- IEEE-style strict comparison: any comparison with `nan` is `false`. -/
def ltB : F → F → Bool
  | fin a, fin b => decide (a < b)
  | fin _, pinf => true
  | ninf, fin _ => true
  | ninf, pinf => true
  | _, _ => false

/-- IEEE-style non-strict comparison: any comparison with `nan` is `false`. -/
def leB : F → F → Bool
  | fin a, fin b => decide (a ≤ b)
  | fin _, pinf => true
  | ninf, fin _ => true
  | ninf, pinf => true
  | pinf, pinf => true
  | ninf, ninf => true
  | _, _ => false

/-- Python truthiness of a float: `bool(nan)` is `True`, `bool(0.0)` is
`False`, every other float is `True`.  Infinities are truthy. -/
def truthy : F → Bool
  | fin a => decide (a ≠ 0)
  | _ => true

/-- Extract the rational from a finite value (default otherwise).  Used only
where a gate has already guaranteed finiteness. -/
def toQ : F → ℚ
  | fin a => a
  | _ => 0

end F

/-- Python `round(q*10^k)/10^k` with banker's (half-to-even) rounding,
on exact rationals. -/
def roundHalfEven (q : ℚ) : ℤ :=
  let f : ℤ := ⌊q⌋
  let r : ℚ := q - f
  if r < 1/2 then f
  else if 1/2 < r then f + 1
  else if f % 2 = 0 then f else f + 1

/-- Python `round(q, 2)` on exact rationals. -/
def pyRound2 (q : ℚ) : ℚ := (roundHalfEven (q * 100) : ℚ) / 100

/-- Python `round(q, 3)` on exact rationals. -/
def pyRound3 (q : ℚ) : ℚ := (roundHalfEven (q * 1000) : ℚ) / 1000

/-- Python `round(x, 2)` on a float value: finite values are rounded,
`inf`/`nan` are returned unchanged. -/
def fRound2 : F → F
  | F.fin q => F.fin (pyRound2 q)
  | x => x

/-- Python `s.startswith(pat)` on strings (by character list, so that it
evaluates by kernel reduction). -/
def strStarts (s pat : String) : Bool := pat.data.isPrefixOf s.data

/-- Python `pat in s` substring test on strings. -/
def strContains (s pat : String) : Bool :=
  go s.data
where
  /-- Walk the character list looking for `pat` as a prefix at each position. -/
  go : List Char → Bool
    | [] => pat.data.isPrefixOf []
    | c :: cs => pat.data.isPrefixOf (c :: cs) || go cs

/-- Python string `<`: lexicographic comparison by Unicode code point,
with a proper prefix comparing smaller. -/
def pyStrLt (a b : String) : Bool :=
  go a.data b.data
where
  /-- Lexicographic comparison of the character lists. -/
  go : List Char → List Char → Bool
    | [], [] => false
    | [], _ :: _ => true
    | _ :: _, [] => false
    | a :: as, b :: bs =>
        if a.val < b.val then true
        else if b.val < a.val then false
        else go as bs

/-- Python string `<=`. -/
def pyStrLe (a b : String) : Bool := pyStrLt a b || a == b

/-- Sum of the rolling window `xs[i-m+1 .. i]`. -/
def winSum (xs : List ℚ) (m i : ℕ) : ℚ :=
  ((xs.take (i + 1)).drop (i + 1 - m)).sum

/-- pandas `Series.rolling(m).mean()` at index `i` for a series `xs` that has
no `nan` entries: `nan` while the window is incomplete, otherwise the mean of
the last `m` values. -/
def rollMean (xs : List ℚ) (m i : ℕ) : F :=
  if m = 0 ∨ i + 1 < m ∨ xs.length ≤ i then F.nan
  else F.fin (winSum xs m i / m)

/-! ## yin_line_logic.py -/

/-- One raw daily bar as read by yin_line_logic.py: 开盘 (open), 收盘 (close),
成交量 (volume), 成交额 (turnover amount).  These columns are always present in
the data this screener reads; the high/low columns are not used by it. -/
structure YBar where
  op : ℚ
  cl : ℚ
  vol : ℚ
  amt : ℚ
deriving DecidableEq, Repr

instance : Inhabited YBar := ⟨⟨0, 0, 0, 0⟩⟩

/-- `ewm(span=s, adjust=False).mean()` continuation: given the previous EMA
value `e`, produce the EMA values for the remaining entries.
The smoothing factor is `a = 2/(s+1)`. -/
def emaFrom (a e : ℚ) : List ℚ → List ℚ
  | [] => []
  | x :: xs =>
      let e2 := (1 - a) * e + a * x
      e2 :: emaFrom a e2 xs

/-- `ewm(span, adjust=False).mean()` over a list, seeded at the first value. -/
def emaList (a : ℚ) : List ℚ → List ℚ
  | [] => []
  | x :: xs => x :: emaFrom a x xs

/-- `dif = ema(close,12) - ema(close,26)` as a list (get_indicators). -/
def difList (closes : List ℚ) : List ℚ :=
  List.zipWith (· - ·) (emaList (2/13) closes) (emaList (2/27) closes)

/-- `dea = dif.ewm(span=9, adjust=False).mean()` as a list (get_indicators). -/
def deaList (closes : List ℚ) : List ℚ :=
  emaList (1/5) (difList closes)

/-- `macd = (dif - dea) * 2` as a list (get_indicators). -/
def macdList (closes : List ℚ) : List ℚ :=
  List.zipWith (fun d e => (d - e) * 2) (difList closes) (deaList closes)

/-- `close.diff()` without its leading `nan`: `deltas[j] = close[j+1] - close[j]`. -/
def deltasOf (closes : List ℚ) : List ℚ :=
  List.zipWith (· - ·) closes.tail closes

/-- `delta.where(delta > 0, 0)` from cal_rsi: the leading `nan` of `diff()`
fails the `> 0` test, so pandas replaces it by `0` as well. -/
def gainsOf (closes : List ℚ) : List ℚ :=
  0 :: (deltasOf closes).map (fun d => max d 0)

/-- `-delta.where(delta < 0, 0)` from cal_rsi (same remark about index 0). -/
def lossesOf (closes : List ℚ) : List ℚ :=
  0 :: (deltasOf closes).map (fun d => max (-d) 0)

/-- `gain.rolling(n).mean()` at index `i` (cal_rsi). -/
def gainAvgAt (closes : List ℚ) (n i : ℕ) : F := rollMean (gainsOf closes) n i

/-- `loss.rolling(n).mean()` at index `i` (cal_rsi). -/
def lossAvgAt (closes : List ℚ) (n i : ℕ) : F := rollMean (lossesOf closes) n i

/-- cal_rsi from yin_line_logic.py at index `i`:
`rs = gain/loss; rsi = 100 - 100/(1+rs)` with floating-point semantics: when
`loss = 0` and `gain > 0`, `rs = +inf` and the result is exactly `100`; when
both averages are `0`, `rs = 0/0 = nan` and the result is `nan`. -/
def rsiAt (closes : List ℚ) (n i : ℕ) : F :=
  F.sub (F.fin 100)
    (F.div (F.fin 100)
      (F.add (F.fin 1) (F.div (gainAvgAt closes n i) (lossAvgAt closes n i))))

/-- `ma{m}` (rolling close mean) at index `i` (get_indicators). -/
def yMaAt (closes : List ℚ) (m i : ℕ) : F := rollMean closes m i

/-- `change = close.pct_change() * 100` at index `i` (get_indicators). -/
def changeAt (closes : List ℚ) (i : ℕ) : F :=
  if i = 0 ∨ closes.length ≤ i then F.nan
  else F.mul (F.div (F.fin (closes.getD i 0 - closes.getD (i - 1) 0))
                    (F.fin (closes.getD (i - 1) 0)))
             (F.fin 100)

/-- `ma20_up = ma20 > ma20.shift(1)` at index `i`; comparisons against the
shifted-in `nan` (at index 0) are `False`. -/
def ma20upAt (closes : List ℚ) (i : ℕ) : Bool :=
  if i = 0 then false
  else F.ltB (yMaAt closes 20 (i - 1)) (yMaAt closes 20 i)

/-- check_logic from yin_line_logic.py.  Returns the `(match_type, ma_key)`
pair on a match, `none` otherwise (the Python `(None, None)`). -/
def checkLogic (bars : List YBar) : Option (String × String) :=
  let n := bars.length
  if n < 60 then none else
  let closes := bars.map YBar.cl
  let vols := bars.map YBar.vol
  let curr := bars.getD (n - 1) default
  -- 维度 A: price band and turnover amount
  if ¬ (5 ≤ curr.cl ∧ curr.cl ≤ 20) ∨ curr.amt < 800000000 then none else
  -- 维度 B: RSI gates
  let r6 := rsiAt closes 6 (n - 1)
  let r12 := rsiAt closes 12 (n - 1)
  if ¬ (F.leB (F.fin 50) r6 ∧ F.leB r6 (F.fin 82)) then none else
  if F.ltB r6 r12 then none else
  -- 维度 C: MACD and position
  let dv := (difList closes).getD (n - 1) 0
  let de := (deaList closes).getD (n - 1) 0
  let mc := (macdList closes).getD (n - 1) 0
  if ¬ (de < dv ∧ (-1)/10 < mc) then none else
  if F.ltB (F.mul (yMaAt closes 20 (n - 1)) (F.fin (112/100))) (F.fin curr.cl)
    then none else
  if ¬ ma20upAt closes (n - 1) then none else
  -- 维度 D: a >7% day among the last 15 bars, volume gap to it
  let strongs := (List.range n).filter
    (fun i => n - 15 ≤ i && F.ltB (F.fin 7) (changeAt closes i))
  if strongs.isEmpty then none else
  let k := strongs.getLast?.getD 0
  if (vols.getD k 0) * (11/20) < vols.getD (n - 1) 0 then none else
  -- 维度 E: shrinking yin bar glued to MA5/MA10
  let isYin := curr.cl < curr.op ∨ F.leB (changeAt closes (n - 1)) (F.fin 0)
  let isShrink :=
    F.ltB (F.fin curr.vol) (F.mul (rollMean vols 5 (n - 1)) (F.fin (13/20)))
  let biasM5 := F.div (F.fabs (F.sub (F.fin curr.cl) (yMaAt closes 5 (n - 1))))
                      (yMaAt closes 5 (n - 1))
  let biasM10 := F.div (F.fabs (F.sub (F.fin curr.cl) (yMaAt closes 10 (n - 1))))
                       (yMaAt closes 10 (n - 1))
  let support : Option String :=
    if F.leB biasM10 (F.fin (1/100)) then some "MA10"
    else if F.leB biasM5 (F.fin (1/100)) then some "MA5"
    else none
  match support with
  | some key =>
      if isYin ∧ isShrink then some ("回踩" ++ key ++ "RSI强势", key) else none
  | none => none

/-- One output row of yin_line_logic.py's main (the dict appended to
`results`; the constant run date column is omitted). -/
structure YRow where
  code : String
  name : String
  price : ℚ
  mtype : String
  rsi6 : ℚ
  bias : ℚ
  macdV : ℚ
  distMa20 : ℚ
  amtYi : ℚ
deriving DecidableEq, Repr

/-- Row construction in yin_line_logic.py's main for a matched symbol.
The RSI/MA values are finite here (the gates in check_logic guarantee it),
so `F.toQ` is exact. -/
def yinRowOf (nameMap : String → Option String) (code : String)
    (bars : List YBar) (mtype maKey : String) : YRow :=
  let n := bars.length
  let closes := bars.map YBar.cl
  let curr := bars.getD (n - 1) default
  let maVal := F.toQ (if maKey = "MA10" then yMaAt closes 10 (n - 1)
                      else yMaAt closes 5 (n - 1))
  let ma20 := F.toQ (yMaAt closes 20 (n - 1))
  { code := code
    name := (nameMap code).getD "未知"
    price := pyRound2 curr.cl
    mtype := mtype
    rsi6 := pyRound2 (F.toQ (rsiAt closes 6 (n - 1)))
    bias := pyRound2 ((curr.cl - maVal) / maVal * 100)
    macdV := pyRound3 ((macdList closes).getD (n - 1) 0)
    distMa20 := pyRound2 ((curr.cl / ma20 - 1) * 100)
    amtYi := pyRound2 (curr.amt / 100000000) }

/-- The per-file loop of yin_line_logic.py's main: evaluate check_logic on
each series and collect the rows of the matches, in file order. -/
def yinRun (nameMap : String → Option String)
    (files : List (String × List YBar)) : List YRow :=
  files.filterMap (fun cb =>
    match checkLogic cb.2 with
    | some (mtype, maKey) => some (yinRowOf nameMap cb.1 cb.2 mtype maKey)
    | none => none)

/-- The ranking key order of yin_line_logic.py's main:
`sort_values(by='RSI6', ascending=False)` — RSI6 descending.  Tied keys keep
their input order in this model; the claims proved about ranking ties hold
for any deterministic key-only tie rule (see C4). -/
def yinRankRel (a b : YRow) : Prop := b.rsi6 ≤ a.rsi6

instance : DecidableRel yinRankRel := fun _ _ => inferInstanceAs (Decidable (_ ≤ _))

instance : IsTotal YRow yinRankRel := ⟨fun a b => le_total b.rsi6 a.rsi6⟩

instance : IsTrans YRow yinRankRel := ⟨fun _ _ _ h1 h2 => le_trans h2 h1⟩

/-- `sort_values(by='RSI6', ascending=False)` on the collected rows. -/
def yinRank (rows : List YRow) : List YRow := List.insertionSort yinRankRel rows

/-- The strict RSI6-descending order (antisymmetric, used to show the sorted
result is unique when the keys are pairwise distinct). -/
def yinRankStrict (a b : YRow) : Prop := b.rsi6 < a.rsi6

instance : IsAntisymm YRow yinRankStrict :=
  ⟨fun _ _ h1 h2 => absurd (lt_trans h1 h2) (lt_irrefl _)⟩

/-- The whole yin_line_logic.py run (scan, then rank). -/
def yinMain (nameMap : String → Option String)
    (files : List (String × List YBar)) : List YRow :=
  yinRank (yinRun nameMap files)

/-! ## Golden_Retracement_Premium.py

Raw cells are modelled as `Option ℚ`: `none` means the CSV for this symbol
lacks the corresponding column, so that reading the cell raises a `KeyError`
in Python.  analyze_stock wraps its whole body in `try/except`, which we model
as an `Except`-valued body plus a catch-all wrapper. -/

/-- One raw daily row for the Golden_Retracement screeners:
开盘 (open), 收盘 (close), 最低 (low), 成交量 (volume), 涨跌幅 (pct change).
`none` marks a missing column. -/
structure RawBar where
  op : Option ℚ
  cl : Option ℚ
  lo : Option ℚ
  vol : Option ℚ
  pct : Option ℚ
deriving DecidableEq, Repr

instance : Inhabited RawBar := ⟨⟨none, none, none, none, none⟩⟩

/-- A fully populated raw row (every required column present). -/
def fullBar (op cl lo vol pct : ℚ) : RawBar :=
  ⟨some op, some cl, some lo, some vol, some pct⟩

/-- The signal dict returned by Golden_Retracement_Premium.analyze_stock.
`strength` is the formatted string `f"{score}分"` stored in the 信号强度
column, which is also the ranking key of main. -/
structure PSig where
  code : String
  name : String
  price : ℚ
  pct : ℚ
  volRatio : F
  strength : String
  advice : String
  stop : ℚ
deriving DecidableEq, Repr

/-- The hard eligibility exclusion of Golden_Retracement_Premium
(line 24): ChiNext/STAR/Beijing code prefixes and an ST display name. -/
def premiumExcluded (code : String) (names : String → Option String) : Bool :=
  strStarts code "30" || strStarts code "688" || strStarts code "8" ||
  strStarts code "9" || strContains ((names code).getD "") "ST"

/-- The body of Golden_Retracement_Premium.analyze_stock (everything inside
its `try:`).  `Except.error` marks a raised `KeyError` (missing column);
`Except.ok none` is a normal no-match. -/
def premiumBody (code : String) (names : String → Option String)
    (rows : List RawBar) : Except String (Option PSig) :=
  let n := rows.length
  if n < 40 then Except.ok none else
  if premiumExcluded code names then Except.ok none else
  match (rows.getD (n - 1) default).cl with
  | none => Except.error "KeyError: 收盘"
  | some lastClose =>
    if ¬ (5 ≤ lastClose ∧ lastClose ≤ 20) then Except.ok none else
    match rows.mapM RawBar.cl with
    | none => Except.error "KeyError: 收盘"
    | some closes =>
      match rows.mapM RawBar.vol with
      | none => Except.error "KeyError: 成交量"
      | some vols =>
        -- MA21 and its 3-day difference, V_MA5
        let ma21 := fun i => rollMean closes 21 i
        let slope := F.sub (ma21 (n - 1)) (ma21 (n - 4))
        if F.leB slope (F.fin 0) then Except.ok none else
        let t1c := closes.getD (n - 2) 0
        if F.ltB (F.fin t1c) (ma21 (n - 2)) then Except.ok none else
        match (rows.getD (n - 2) default).op with
        | none => Except.error "KeyError: 开盘"
        | some t1o =>
          match (rows.getD (n - 2) default).lo with
          | none => Except.error "KeyError: 最低"
          | some t1l =>
            match (rows.getD (n - 1) default).op with
            | none => Except.error "KeyError: 开盘"
            | some t0o =>
              let isNeg := t1c < t1o
              let bodySize := t1o - t1c
              let lowerShadow := t1c - t1l
              let isShaved :=
                if 0 < bodySize then lowerShadow ≤ bodySize * (1/10) else False
              let isLowVol := F.ltB (F.fin (vols.getD (n - 2) 0))
                (F.mul (rollMean vols 5 (n - 2)) (F.fin (9/10)))
              let isPos := t0o < lastClose
              let rvr := F.div (F.fin (vols.getD (n - 1) 0))
                               (F.fin (vols.getD (n - 2) 0))
              let isReclaim := t1c + bodySize * (4/5) < lastClose
              if isNeg ∧ isShaved ∧ isLowVol ∧ isPos ∧ isReclaim then
                let score : ℕ :=
                  60 + (if F.ltB (F.fin (3/2)) rvr then 20 else 0)
                     + (if t1o < lastClose then 20 else 0)
                let advice :=
                  if 100 ≤ score then "一击必中/全仓博弈"
                  else if 80 ≤ score then "积极参与"
                  else "重点关注"
                match (rows.getD (n - 1) default).pct with
                | none => Except.error "KeyError: 涨跌幅"
                | some pct0 =>
                  Except.ok (some
                    { code := code
                      name := (names code).getD "未知"
                      price := lastClose
                      pct := pct0
                      volRatio := fRound2 rvr
                      strength := Nat.repr score ++ "分"
                      advice := advice
                      stop := t1l })
              else Except.ok none

/-- Golden_Retracement_Premium.analyze_stock: the `try/except` wrapper
converts any raised fault into the no-match result `None`. -/
def premiumAnalyze (code : String) (names : String → Option String)
    (rows : List RawBar) : Option PSig :=
  match premiumBody code names rows with
  | Except.ok r => r
  | Except.error _ => none

/-- The per-file fan-out of Golden_Retracement_Premium.main
(`pool.starmap(analyze_stock, ...)`): one independent evaluation per file,
results collected in file order. -/
def premiumRun (names : String → Option String)
    (files : List (String × List RawBar)) : List (Option PSig) :=
  files.map (fun cb => premiumAnalyze cb.1 names cb.2)

/-- The ranking order of Golden_Retracement_Premium.main:
`sort_values(by="信号强度", ascending=False)` — 信号强度 holds the STRING
`f"{score}分"`, so the key comparison is Python string comparison. -/
def premiumRankRel (a b : PSig) : Prop := pyStrLe b.strength a.strength = true

instance : DecidableRel premiumRankRel :=
  fun _ _ => inferInstanceAs (Decidable (_ = true))

/-- The ranked output of Golden_Retracement_Premium.main: sort by the
信号强度 string descending, then keep the top 5.  Distinct keys make the
result independent of the tie rule of the underlying sort. -/
def premiumRank (sigs : List PSig) : List PSig :=
  (List.insertionSort premiumRankRel sigs).take 5

/-! ## Golden_Retracement_Strategy.py (shape gate only)

Claim C6 also cites the shaved-bottom gate of Golden_Retracement_Strategy
(lines 46-48), the same conditional-expression guard as in the Premium
variant but with `body_size = abs(open - close)` and a 5% threshold. -/

/-- Lines 46-48 of Golden_Retracement_Strategy.analyze_stock:
`is_shaved_bottom = lower_shadow <= (body_size * 0.05) if body_size > 0
else False`. -/
def strategyIsShaved (t1op t1cl t1lo : ℚ) : Bool :=
  let bodySize := |t1op - t1cl|
  let lowerShadow := t1cl - t1lo
  if 0 < bodySize then decide (lowerShadow ≤ bodySize * (5/100)) else false

/-! ## stock_reversal_screener.py -/

/-- One renamed raw row of stock_reversal_screener.py (only Close and Volume
feed the screening logic). -/
structure SBar where
  cl : ℚ
  vol : ℚ
deriving DecidableEq, Repr

/-- The `Low_Reversal_Check` column of calculate_indicators at index `i`:
`close.rolling(30).apply(lambda x: (x[:-1] <= MA20[x.index[:-1]]).any())`.
`nan` while the 30-window is incomplete; otherwise 1.0 or 0.0 according to
whether any of the 29 previous closes sits at or below its MA20 (comparisons
against the `nan` MA20 entries of the first 19 rows are `False`). -/
def lowReversalAt (closes : List ℚ) (i : ℕ) : F :=
  if i + 1 < 30 ∨ closes.length ≤ i then F.nan
  else if ((List.range i).filter (fun j => i - 29 ≤ j)).any
            (fun j => F.leB (F.fin (closes.getD j 0)) (rollMean closes 20 j))
       then F.fin 1 else F.fin 0

/-- The result dict of apply_screener_logic on success. -/
structure SRes where
  code : String
  latestClose : ℚ
  ma5 : F
  ma20 : F
deriving DecidableEq, Repr

/-- apply_screener_logic from stock_reversal_screener.py.  The
`if not latest['Low_Reversal_Check']` gate goes through Python truthiness
of the float value, so a `nan` (series shorter than 30) passes the gate. -/
def applyScreenerLogic (bars : List SBar) (code : String) : Option SRes :=
  let n := bars.length
  let closes := bars.map SBar.cl
  let vols := bars.map SBar.vol
  if n = 0 ∨ n < 20 then none else
  let latest := closes.getD (n - 1) 0
  -- 1. price band
  if ¬ (5 ≤ latest ∧ latest ≤ 20) then none else
  -- 2. short-term trend reversal (MA5 > MA20 and Close > MA5)
  let ma5 := rollMean closes 5 (n - 1)
  let ma20 := rollMean closes 20 (n - 1)
  if ¬ (F.ltB ma20 ma5 ∧ F.ltB ma5 (F.fin latest)) then none else
  -- 3. low reversal signal (Python truthiness of the float)
  if ¬ F.truthy (lowReversalAt closes (n - 1)) then none else
  -- 4. volume support (Vol_MA5 > Vol_MA20)
  if ¬ F.ltB (rollMean vols 20 (n - 1)) (rollMean vols 5 (n - 1)) then none else
  some { code := code, latestClose := latest,
         ma5 := ma5, ma20 := ma20 }

/-! ## one_pattern_strategy.py (post-merge name handling) -/

/-- One record produced by one_pattern_strategy.filter_stock for a symbol
that passed every numeric gate. -/
structure ORow where
  code : String
  price : ℚ
  pct : ℚ
  turnover : ℚ
  volRatio : ℚ
deriving DecidableEq, Repr

/-- A merged row after `pd.merge(..., on='code', how='left')`: the name is
`none` (NaN) when the code has no entry in stock_names.csv. -/
structure MRow where
  row : ORow
  name : Option String
deriving DecidableEq, Repr

/-- Lines 86-89 of one_pattern_strategy.main: left-merge the names onto the
gate-passing rows, drop rows whose name contains 'ST'
(`str.contains('ST', na=False)`: a NaN name tests False, so it SURVIVES this
filter), then `dropna()` (which removes any row with a NaN field — the name
is the only possibly-NaN field of these rows). -/
def onePatternFinal (rows : List ORow) (names : String → Option String) :
    List MRow :=
  let merged := rows.map (fun r => MRow.mk r (names r.code))
  let noST := merged.filter (fun m =>
    ! (match m.name with
       | some nm => strContains nm "ST"
       | none => false))
  noST.filter (fun m => m.name.isSome)

/-! ## Concrete example inputs -/

/-- A 60-bar close series that passes every numeric gate of check_logic:
flat at 10, a decline to 9, a +10% strong day at index 47, then a mild
recovery ending with a small down (yin) bar glued to MA10. -/
def yinExCloses : List ℚ :=
  List.replicate 37 10 ++
  [99/10, 98/10, 97/10, 96/10, 95/10, 94/10, 93/10, 92/10, 91/10, 9,
   99/10, 995/100, 10, 995/100, 10, 1005/100, 10, 1005/100, 101/10, 1005/100,
   101/10, 1015/100, 1013/100]

/-- The matching volume series: 800 throughout, 1000 on the strong day
(index 47), 400 (extreme shrink) on the last day. -/
def yinExVols : List ℚ :=
  List.replicate 47 800 ++ [1000] ++ List.replicate 11 800 ++ [400]

/-- The example bar series for yin_line_logic (open = close on every bar;
the last bar is yin through its non-positive pct change). -/
def yinExBars : List YBar :=
  (List.zip yinExCloses yinExVols).map (fun cv =>
    { op := cv.1, cl := cv.1, vol := cv.2, amt := 900000000 })

/-- A name registry that maps the example code to an ST display name. -/
def yinExNames : String → Option String :=
  fun c => if c = "600001" then some "ST示例" else none

/-- A flat 7-bar close series: every change is zero, so both RSI rolling
averages are zero. -/
def flatCloses : List ℚ := List.replicate 7 10

/-- A strictly increasing 7-bar close series: the loss average is zero and
the gain average is positive. -/
def incCloses : List ℚ := [10, 11, 12, 13, 14, 15, 16]

/-- Premium example 1: passes every gate with volume ratio 2 and a full
engulfing close, scoring 100. -/
def pEx1Rows : List RawBar :=
  List.replicate 38 (fullBar 10 10 10 100 0) ++
  [fullBar (105/10) (101/10) (1008/100) 50 (-2),
   fullBar (102/10) (106/10) (1015/100) 100 5]

/-- Premium example 2: identical but with confirmation volume 60, so the
volume ratio is 1.2 and the score is 80. -/
def pEx2Rows : List RawBar :=
  List.replicate 38 (fullBar 10 10 10 100 0) ++
  [fullBar (105/10) (101/10) (1008/100) 50 (-2),
   fullBar (102/10) (106/10) (1015/100) 60 5]

/-- A 40-row input whose CSV lacks every required column: the first cell
read raises a KeyError. -/
def pBadRows : List RawBar := List.replicate 40 default

/-- Name registry for the premium examples. -/
def pExNames : String → Option String :=
  fun c => if c = "000001" then some "甲公司"
           else if c = "000002" then some "乙公司" else none

/-- The signal produced by `premiumAnalyze` on example 1 (score 100). -/
def pSig100 : PSig :=
  { code := "000001", name := "甲公司", price := 106/10, pct := 5,
    volRatio := F.fin 2, strength := "100分",
    advice := "一击必中/全仓博弈", stop := 1008/100 }

/-- The signal produced by `premiumAnalyze` on example 2 (score 80). -/
def pSig80 : PSig :=
  { code := "000002", name := "乙公司", price := 106/10, pct := 5,
    volRatio := F.fin (6/5), strength := "80分",
    advice := "积极参与", stop := 1008/100 }

/-- Premium example with a zero-body setup bar (open = close = 10.1). -/
def zeroBodyRows : List RawBar :=
  List.replicate 38 (fullBar 10 10 10 100 0) ++
  [fullBar (101/10) (101/10) (1008/100) 50 (-2),
   fullBar (102/10) (106/10) (1015/100) 100 5]

/-- A registry carrying an ST name for the C5 witness. -/
def stNames : String → Option String :=
  fun c => if c = "600519" then some "ST贵州" else none

/-- Two ranked yin rows with EQUAL RSI6 keys but different codes. -/
def yRowA : YRow :=
  { code := "600001", name := "甲", price := 10, mtype := "回踩MA10RSI强势",
    rsi6 := 60, bias := 0, macdV := 0, distMa20 := 0, amtYi := 9 }

/-- Second tied row (same key, different symbol). -/
def yRowB : YRow :=
  { code := "600002", name := "乙", price := 10, mtype := "回踩MA10RSI强势",
    rsi6 := 60, bias := 0, macdV := 0, distMa20 := 0, amtYi := 9 }

/-- A third row with a distinct RSI6 key (for the C4 witness). -/
def yRowC : YRow :=
  { code := "600003", name := "丙", price := 10, mtype := "回踩MA5RSI强势",
    rsi6 := 55, bias := 0, macdV := 0, distMa20 := 0, amtYi := 9 }

/-- The 20-bar screener input: rising closes 8.00, 8.05, ..., 8.95 and rising
volumes, so every MA/volume gate passes while `Low_Reversal_Check` (window
30) is still `nan`. -/
def sExBars : List SBar :=
  (List.range 20).map (fun i => { cl := 8 + (i : ℚ)/20, vol := 100 + 10 * i })

/-- The match record `applyScreenerLogic` produces on `sExBars`. -/
def sResEx : SRes :=
  { code := "600001", latestClose := 179/20,
    ma5 := F.fin (177/20), ma20 := F.fin (339/40) }

/-- A gate-passing one_pattern row whose code IS in the registry. -/
def oRowEx : ORow :=
  { code := "600000", price := 10, pct := 6, turnover := 5, volRatio := 3 }

/-- Registry for the one_pattern example. -/
def oNames : String → Option String :=
  fun c => if c = "600000" then some "浦发银行" else none

/-! ## Supporting lemmas -/

/-- Every entry of the gain series is nonnegative. -/
theorem gainsOf_nonneg {closes : List ℚ} {x : ℚ} (hx : x ∈ gainsOf closes) :
    0 ≤ x := by
  simp only [gainsOf, List.mem_cons, List.mem_map] at hx
  rcases hx with rfl | ⟨d, _, rfl⟩
  · exact le_refl 0
  · exact le_max_right d 0

/-- A finite rolling gain average is nonnegative (it averages nonnegative
entries). -/
theorem gainAvg_fin_nonneg {closes : List ℚ} {n i : ℕ} {g : ℚ}
    (h : gainAvgAt closes n i = F.fin g) : 0 ≤ g := by
  unfold gainAvgAt rollMean at h
  split at h
  · exact absurd h (by simp)
  · have hg : winSum (gainsOf closes) n i / (n : ℚ) = g := by
      injection h
    rw [← hg]
    apply div_nonneg
    · apply List.sum_nonneg
      intro x hx
      exact gainsOf_nonneg (List.mem_of_mem_take (List.mem_of_mem_drop hx))
    · exact Nat.cast_nonneg n

/-- Pairwise conjunction of two pairwise relations on the same list. -/
theorem pairwise_and_of {α : Type} {R S : α → α → Prop} :
    ∀ {l : List α}, l.Pairwise R → l.Pairwise S →
      l.Pairwise (fun a b => R a b ∧ S a b)
  | _, .nil, .nil => .nil
  | _, .cons hR pR, .cons hS pS =>
      .cons (fun b hb => ⟨hR b hb, hS b hb⟩) (pairwise_and_of pR pS)


/-- If forcing the close column succeeds, each row's close cell holds the
corresponding entry of the produced column list. -/
theorem mapM_cl_getD : ∀ (rows : List RawBar) (closes : List ℚ),
    rows.mapM RawBar.cl = some closes →
    ∀ i, i < rows.length → (rows.getD i default).cl = some (closes.getD i 0)
  | [], _, _, i, hi => by simp at hi
  | r :: rs, closes, h, i, hi => by
      rw [List.mapM_cons] at h
      cases hc : r.cl with
      | none => rw [hc] at h; simp at h
      | some c =>
        rw [hc] at h
        cases hm : rs.mapM RawBar.cl with
        | none => rw [hm] at h; simp at h
        | some cs =>
          rw [hm] at h
          simp only [Option.pure_def, Option.bind_eq_bind, Option.some_bind,
            Option.some.injEq] at h
          subst h
          cases i with
          | zero => simpa using hc
          | succ j =>
            have := mapM_cl_getD rs cs hm j (by simpa using hi)
            simpa using this

/-- Dissection of a successful premium evaluation: reaching the success
branch forces the setup (second-to-last) bar's open/low/close cells to be
present, the bearish condition to hold on them, and the returned signal's
stop to be the setup bar's low. -/
theorem premiumBody_success (code : String) (names : String → Option String)
    (rows : List RawBar) (sig : PSig)
    (h : premiumBody code names rows = Except.ok (some sig)) :
    ∃ t1o t1l t1c : ℚ,
      (rows.getD (rows.length - 2) default).op = some t1o ∧
      (rows.getD (rows.length - 2) default).lo = some t1l ∧
      (rows.getD (rows.length - 2) default).cl = some t1c ∧
      t1c < t1o ∧ sig.stop = t1l := by
  by_cases hn : rows.length < 40
  · simp [premiumBody, hn] at h
  simp only [premiumBody] at h
  rw [if_neg hn] at h
  split at h
  · simp at h
  split at h <;> rename_i heq0
  · simp at h
  split at h
  · simp at h
  split at h <;> rename_i closes heqc
  · simp at h
  split at h <;> rename_i vols heqv
  · simp at h
  split at h
  · simp at h
  split at h
  · simp at h
  split at h <;> rename_i t1o hop
  · simp at h
  split at h <;> rename_i t1l hlo
  · simp at h
  split at h <;> rename_i t0o h0op
  · simp at h
  -- the isShaved conditional expression, the gate conjunction, and the
  -- 涨跌幅 cell read
  split at h
  · split at h
    · rename_i hcond
      split at h
      · simp at h
      · rename_i pct0 hpctEq
        simp only [Except.ok.injEq, Option.some.injEq] at h
        subst h
        exact ⟨t1o, t1l, _, hop, hlo,
          mapM_cl_getD rows closes heqc (rows.length - 2) (by omega),
          hcond.1, rfl⟩
    · simp at h
  · split at h
    · rename_i hcond
      split at h
      · simp at h
      · rename_i pct0 hpctEq
        simp only [Except.ok.injEq, Option.some.injEq] at h
        subst h
        exact ⟨t1o, t1l, _, hop, hlo,
          mapM_cl_getD rows closes heqc (rows.length - 2) (by omega),
          hcond.1, rfl⟩
    · simp at h

/-- A match result is a successful body run (the catch-all wrapper only
turns errors into `none`). -/
theorem premiumAnalyze_some (code : String) (names : String → Option String)
    (rows : List RawBar) (sig : PSig)
    (h : premiumAnalyze code names rows = some sig) :
    premiumBody code names rows = Except.ok (some sig) := by
  unfold premiumAnalyze at h
  cases hb : premiumBody code names rows with
  | ok r => rw [hb] at h; simp only [] at h; rw [h]
  | error e => rw [hb] at h; exact absurd h (by simp)

/-! ## Claim C1 -/

/-- C1 counterexample: on a flat 7-bar series with RSI window 6 the rolling
negative-change average is exactly zero, yet cal_rsi returns `nan`
(`rs = 0/0`), not 100 — an undefined value, contradicting the claim. -/
theorem C1_flat_series_counterexample :
    lossAvgAt flatCloses 6 6 = F.fin 0 ∧ rsiAt flatCloses 6 6 = F.nan ∧
    rsiAt flatCloses 6 6 ≠ F.fin 100 := ⟨by decide, by decide, by decide⟩

/-- C1 (amended): whenever the rolling negative-change average is exactly
zero AND the rolling positive-change average is nonzero, cal_rsi returns
exactly 100 (`rs = +inf`), with no division fault; when both averages are
zero the result is `nan` instead. -/
theorem C1_rsi_saturates_on_zero_loss (closes : List ℚ) (n i : ℕ) (g : ℚ)
    (h1 : lossAvgAt closes n i = F.fin 0)
    (h2 : gainAvgAt closes n i = F.fin g) (h3 : g ≠ 0) :
    rsiAt closes n i = F.fin 100 := by
  have hg : 0 < g := lt_of_le_of_ne (gainAvg_fin_nonneg h2) (Ne.symm h3)
  unfold rsiAt
  rw [h1, h2]
  have e1 : F.div (F.fin g) (F.fin 0) = F.pinf := by
    simp [F.div, h3, hg]
  rw [e1]
  show F.sub (F.fin 100) (F.div (F.fin 100) (F.add (F.fin 1) F.pinf)) = _
  norm_num [F.add, F.div, F.sub, F.neg]

/-- C1 witness: a strictly rising series has zero loss average, gain
average 1, and RSI exactly 100. -/
theorem C1_witness :
    lossAvgAt incCloses 6 6 = F.fin 0 ∧ gainAvgAt incCloses 6 6 = F.fin 1 ∧
    rsiAt incCloses 6 6 = F.fin 100 :=
  ⟨by decide, by decide,
   C1_rsi_saturates_on_zero_loss incCloses 6 6 1 (by decide) (by decide)
     (by decide)⟩

/-! ## Claim C2 -/

/-- C2: on a 20-bar series the `Low_Reversal_Check` value read by
apply_screener_logic is `nan` (its 30-bar window is incomplete), yet the
function returns a match — Python `not nan` is `False`, so the undefined
value passes the gate instead of yielding NoMatch. -/
theorem C2_nan_gate_passes :
    lowReversalAt (sExBars.map SBar.cl) 19 = F.nan ∧
    sExBars.length = 20 ∧
    applyScreenerLogic sExBars "600001" = some sResEx :=
  ⟨by decide, by decide, by decide⟩

/-! ## Claim C3 -/

/-- C3: two signals produced by analyze_stock in one run, with integer
scores 100 and 80; the ranked output places the score-80 signal FIRST,
because main sorts the formatted string column 信号强度 and
`"80分" > "100分"` in string order.  The claim (higher integer score first)
is false on the code. -/
theorem C3_string_sort_misranks_scores :
    premiumAnalyze "000001" pExNames pEx1Rows = some pSig100 ∧
    premiumAnalyze "000002" pExNames pEx2Rows = some pSig80 ∧
    pSig100.strength = "100分" ∧ pSig80.strength = "80分" ∧
    premiumRank [pSig100, pSig80] = [pSig80, pSig100] :=
  ⟨by decide, by decide, by decide, by decide, by decide⟩

/-! ## Claim C4 -/

/-- C4 counterexample: two signals with EQUAL ranking keys (RSI6) but
different symbols; reversing the collection before ranking changes the
ordered output, because the ranking applies no tie-break.  (The inequality
holds under any deterministic key-only tie rule: the sort sees identical key
sequences for the list and its reverse, so it applies the same positional
permutation to both, and applying one permutation to two different
two-element sequences cannot give the same sequence.) -/
theorem C4_tie_breaks_reversal_invariance :
    yRowA.rsi6 = yRowB.rsi6 ∧
    yinRank ([yRowA, yRowB].reverse) ≠ yinRank [yRowA, yRowB] :=
  ⟨by decide, by decide⟩

/-- C4 (amended): whenever the ranking keys are pairwise distinct within the
collection, ranking is reversal-invariant — reversing the input collection
yields the identical ordered output.  With tied keys the relative order of
the tied signals depends on the input order. -/
theorem C4_rank_reversal_invariant_of_distinct_keys (l : List YRow)
    (h : l.Pairwise (fun a b => a.rsi6 ≠ b.rsi6)) :
    yinRank l.reverse = yinRank l := by
  have hperm : List.Perm (yinRank l.reverse) (yinRank l) :=
    ((List.perm_insertionSort _ _).trans l.reverse_perm).trans
      (List.perm_insertionSort yinRankRel l).symm
  have hs1 : List.Sorted yinRankRel (yinRank l) :=
    List.sorted_insertionSort yinRankRel l
  have hs2 : List.Sorted yinRankRel (yinRank l.reverse) :=
    List.sorted_insertionSort yinRankRel l.reverse
  have hne1 : (yinRank l).Pairwise (fun a b => a.rsi6 ≠ b.rsi6) :=
    ((List.perm_insertionSort yinRankRel l).pairwise_iff
      (fun hxy => Ne.symm hxy)).mpr h
  have hrev : l.reverse.Pairwise (fun a b => a.rsi6 ≠ b.rsi6) :=
    List.pairwise_reverse.mpr (h.imp fun hab => Ne.symm hab)
  have hne2 : (yinRank l.reverse).Pairwise (fun a b => a.rsi6 ≠ b.rsi6) :=
    ((List.perm_insertionSort yinRankRel l.reverse).pairwise_iff
      (fun hxy => Ne.symm hxy)).mpr hrev
  have hstrict : ∀ {m : List YRow}, List.Sorted yinRankRel m →
      m.Pairwise (fun a b => a.rsi6 ≠ b.rsi6) →
      List.Sorted yinRankStrict m := by
    intro m hs hne
    exact (pairwise_and_of hs hne).imp
      (fun hab => lt_of_le_of_ne hab.1 (Ne.symm hab.2))
  exact List.eq_of_perm_of_sorted hperm (hstrict hs2 hne2) (hstrict hs1 hne1)

/-- C4 witness: with two distinct keys, ranking the reversed collection
gives the same output as ranking the original. -/
theorem C4_witness :
    ([yRowA, yRowC] : List YRow).Pairwise (fun a b => a.rsi6 ≠ b.rsi6) ∧
    yinRank ([yRowA, yRowC].reverse) = yinRank [yRowA, yRowC] :=
  ⟨by decide,
   C4_rank_reversal_invariant_of_distinct_keys [yRowA, yRowC] (by decide)⟩

/-! ## Claim C5 -/

/-- C5 counterexample: the yin_line_logic screener applies NO name-based
exclusion — a symbol whose registered display name contains 'ST' and whose
series passes every numeric gate appears in the final ranked results. -/
theorem C5_yin_keeps_st_counterexample :
    strContains ((yinExNames "600001").getD "") "ST" = true ∧
    (yinMain yinExNames [("600001", yinExBars)]).map YRow.name = ["ST示例"] :=
  ⟨by decide, by decide⟩

/-- C5 (amended): the Golden_Retracement_Premium screener does exclude every
symbol whose registered display name contains 'ST', regardless of its bar
series; the yin-line screener applies no such exclusion. -/
theorem C5_premium_excludes_st (code : String)
    (names : String → Option String) (rows : List RawBar)
    (h : strContains ((names code).getD "") "ST" = true) :
    premiumAnalyze code names rows = none := by
  unfold premiumAnalyze premiumBody premiumExcluded
  rw [h]
  by_cases hl : rows.length < 40 <;> simp [hl]

/-- C5 witness: a concrete ST-named symbol is excluded by the premium
screener. -/
theorem C5_witness :
    strContains ((stNames "600519").getD "") "ST" = true ∧
    premiumAnalyze "600519" stNames [] = none :=
  ⟨by decide, C5_premium_excludes_st "600519" stNames [] (by decide)⟩

/-! ## Claim C6 -/

/-- C6: a setup bar with zero body (open = close) can never produce a match:
the premium evaluation returns NoMatch (its success branch requires a
strictly bearish setup bar), and the Strategy variant's shaved-bottom gate
evaluates to `false` outright (the `if body_size > 0 ... else False` guard),
with no division anywhere. -/
theorem C6_zero_body_no_match (code : String)
    (names : String → Option String) (rows : List RawBar) (q l : ℚ)
    (h : (rows.getD (rows.length - 2) default).op =
         (rows.getD (rows.length - 2) default).cl) :
    premiumAnalyze code names rows = none ∧ strategyIsShaved q q l = false := by
  constructor
  · cases hr : premiumAnalyze code names rows with
    | none => rfl
    | some sig =>
        obtain ⟨t1o, t1l, t1c, hop, _, hcl, hlt, _⟩ :=
          premiumBody_success code names rows sig
            (premiumAnalyze_some code names rows sig hr)
        rw [h, hcl] at hop
        injection hop with he
        rw [he] at hlt
        exact absurd hlt (lt_irrefl _)
  · simp [strategyIsShaved]

/-- C6 witness: a concrete 40-bar premium input whose setup bar has
open = close is rejected, and the Strategy shape gate is false on a
zero-body bar. -/
theorem C6_witness :
    (zeroBodyRows.getD (zeroBodyRows.length - 2) default).op =
      (zeroBodyRows.getD (zeroBodyRows.length - 2) default).cl ∧
    premiumAnalyze "000001" pExNames zeroBodyRows = none ∧
    strategyIsShaved 10 10 (99/10) = false :=
  ⟨by decide,
   (C6_zero_body_no_match "000001" pExNames zeroBodyRows 10 (99/10)
      (by decide)).1,
   (C6_zero_body_no_match "000001" pExNames zeroBodyRows 10 (99/10)
      (by decide)).2⟩

/-! ## Claim C7 -/

/-- C7: a series shorter than the pattern's configured minimum history
(40 bars for Golden_Retracement_Premium, 60 for yin_line_logic) always
yields NoMatch, with no fault (both evaluations are total functions and
return before touching any bar). -/
theorem C7_short_series_no_match :
    (∀ (code : String) (names : String → Option String)
       (rows : List RawBar), rows.length < 40 →
         premiumAnalyze code names rows = none) ∧
    (∀ bars : List YBar, bars.length < 60 → checkLogic bars = none) := by
  constructor
  · intro code names rows hlen
    unfold premiumAnalyze premiumBody
    simp [hlen]
  · intro bars hlen
    unfold checkLogic
    simp [hlen]

/-- C7 witness: the empty series is rejected by both screeners. -/
theorem C7_witness :
    premiumAnalyze "000001" pExNames [] = none ∧ checkLogic [] = none :=
  ⟨C7_short_series_no_match.1 "000001" pExNames [] (by decide),
   C7_short_series_no_match.2 [] (by decide)⟩

/-! ## Claim C8 -/

/-- C8: a fault raised inside analyze_stock (here: a missing required
column) is caught at the symbol boundary and converted to NoMatch, and the
fan-out over the remaining symbols is unaffected — the run maps every other
symbol exactly as it would without the bad one. -/
theorem C8_symbol_fault_isolated (names : String → Option String)
    (pre post : List (String × List RawBar)) (c : String)
    (rows : List RawBar) (e : String)
    (h : premiumBody c names rows = Except.error e) :
    premiumAnalyze c names rows = none ∧
    premiumRun names (pre ++ (c, rows) :: post) =
      premiumRun names pre ++ none :: premiumRun names post := by
  have h1 : premiumAnalyze c names rows = none := by
    unfold premiumAnalyze
    rw [h]
  refine ⟨h1, ?_⟩
  unfold premiumRun
  rw [List.map_append, List.map_cons]
  simp only [h1]

/-- C8 witness: a 40-row input with every column missing raises a KeyError
on the first cell read; surrounded by two good symbols, the run still
produces both of their results, with `none` in the bad symbol's slot. -/
theorem C8_witness :
    premiumBody "000003" pExNames pBadRows = Except.error "KeyError: 收盘" ∧
    premiumRun pExNames
        ([("000001", pEx1Rows)] ++ ("000003", pBadRows) ::
          [("000002", pEx2Rows)]) =
      premiumRun pExNames [("000001", pEx1Rows)] ++
        none :: premiumRun pExNames [("000002", pEx2Rows)] :=
  ⟨by rfl,
   (C8_symbol_fault_isolated pExNames [("000001", pEx1Rows)]
      [("000002", pEx2Rows)] "000003" pBadRows "KeyError: 收盘" (by rfl)).2⟩

/-! ## Claim C9 -/

/-- C9: whenever the premium screener produces a Signal, the signal's
stop-loss (止损点) equals the setup (second-to-last) bar's low (最低). -/
theorem C9_stop_is_setup_bar_low (code : String)
    (names : String → Option String) (rows : List RawBar) (sig : PSig)
    (h : premiumAnalyze code names rows = some sig) :
    (rows.getD (rows.length - 2) default).lo = some sig.stop := by
  obtain ⟨t1o, t1l, t1c, _, hlo, _, _, hstop⟩ :=
    premiumBody_success code names rows sig
      (premiumAnalyze_some code names rows sig h)
  rw [hlo, hstop]

/-- C9 witness: on the concrete passing input the produced signal's stop is
10.08, the setup bar's low. -/
theorem C9_witness :
    premiumAnalyze "000001" pExNames pEx1Rows = some pSig100 ∧
    (pEx1Rows.getD (pEx1Rows.length - 2) default).lo = some pSig100.stop :=
  ⟨by decide,
   C9_stop_is_setup_bar_low "000001" pExNames pEx1Rows pSig100 (by decide)⟩

/-! ## Claim C10 -/

/-- C10: every row surviving one_pattern_strategy's post-merge cleanup has a
registered name: a gate-passing symbol whose code has no registry entry is
merged with a NaN name, survives the ST filter (`na=False`), and is then
removed by `dropna()` — it is silently dropped, never reported with a
placeholder. -/
theorem C10_unregistered_rows_dropped (rows : List ORow)
    (names : String → Option String) (m : MRow)
    (h : m ∈ onePatternFinal rows names) :
    ∃ nm, names m.row.code = some nm ∧ m.name = some nm := by
  unfold onePatternFinal at h
  simp only [List.mem_filter, List.mem_map] at h
  obtain ⟨⟨⟨r, hr, rfl⟩, hst⟩, hsome⟩ := h
  cases hn : names r.code with
  | none => rw [hn] at hsome; simp at hsome
  | some nm => exact ⟨nm, by simp [hn], by simp [hn]⟩

/-- C10 witness: a registered symbol survives with its registry name. -/
theorem C10_witness :
    MRow.mk oRowEx (some "浦发银行") ∈ onePatternFinal [oRowEx] oNames ∧
    ∃ nm, oNames (MRow.mk oRowEx (some "浦发银行")).row.code = some nm ∧
          (MRow.mk oRowEx (some "浦发银行")).name = some nm :=
  ⟨by decide,
   C10_unregistered_rows_dropped [oRowEx] oNames
     (MRow.mk oRowEx (some "浦发银行")) (by decide)⟩
